import Mathlib

/-!
Shallow embedding of `task-3.py`: a seeded synthetic sales-data generator,
three group-by/sum aggregations (by region, category, month) and the numeric
pieces of the dashboard renderer (value formatting, axis tick computation,
static region label panels).

Machine floats of the source are modelled as exact rationals; the NumPy
pseudo-random stream is modelled as an abstract state type threaded linearly
through the generation loop, with the distributional draw functions as
parameters constrained only by their support (a valid `randint lo hi` lands in
`[lo, hi)`, a valid `choice` returns an element of the offered list, a valid
`uniform lo hi` lands in `[lo, hi)`).
-/

namespace Task3

/-- One row of the generated DataFrame: `[date, region, category, sales_amount]`,
with the derived `Month` column (`df['OrderDate'].dt.month`) carried as the
`month`/`day` split of the date (all dates lie in year 2024). -/
structure Transaction where
  month : Nat
  day : Nat
  region : String
  category : String
  amount : ℚ
deriving DecidableEq

/-- `regions = ['West', 'East', 'Central', 'South']` -/
def regions : List String := ["West", "East", "Central", "South"]

/-- `categories = ['Technology', 'Furniture', 'Office Supplies']` -/
def categories : List String := ["Technology", "Furniture", "Office Supplies"]

/-- Region sampling weights `p=[0.3, 0.25, 0.25, 0.2]`. -/
def regionWeights : List ℚ := [3/10, 1/4, 1/4, 1/5]

/-- Category sampling weights `p=[0.4, 0.35, 0.25]`. -/
def categoryWeights : List ℚ := [2/5, 7/20, 1/4]

/-- Day counts of the twelve months of 2024 (a leap year). -/
def daysInMonth2024 : Nat → Nat
  | 1 => 31 | 2 => 29 | 3 => 31 | 4 => 30 | 5 => 31 | 6 => 30
  | 7 => 31 | 8 => 31 | 9 => 30 | 10 => 31 | 11 => 30 | 12 => 31
  | _ => 0

/-- `pd.date_range(start='2024-01-01', end='2024-12-31', freq='D')` as
(month, day) pairs in chronological order. -/
def dates2024 : List (Nat × Nat) :=
  (List.range 12).flatMap (fun m =>
    (List.range (daysInMonth2024 (m + 1))).map (fun d => (m + 1, d + 1)))

/-- Abstract interface to the `np.random` stream: a state type `σ`, a seeding
function, and the three draw primitives the script uses. Each draw consumes the
state and returns the drawn value together with the successor state; the
weights passed to `choice` record the `p=` argument of `np.random.choice`. -/
structure PRNG (σ : Type) where
  seed : Nat → σ
  randint : ℤ → ℤ → σ → ℤ × σ
  choice : List String → List ℚ → σ → String × σ
  uniform : ℚ → ℚ → σ → ℚ × σ

/-- Support constraints satisfied by the real NumPy draws:
`randint(lo, hi)` is in `[lo, hi)`, `choice(opts, p)` returns an element of
`opts`, `uniform(lo, hi)` is in `[lo, hi)`. -/
structure PRNG.Valid {σ : Type} (g : PRNG σ) : Prop where
  randint_mem : ∀ lo hi s, lo < hi →
    lo ≤ (g.randint lo hi s).1 ∧ (g.randint lo hi s).1 < hi
  choice_mem : ∀ opts p s, opts ≠ [] → (g.choice opts p s).1 ∈ opts
  uniform_mem : ∀ lo hi s, lo < hi →
    lo ≤ (g.uniform lo hi s).1 ∧ (g.uniform lo hi s).1 < hi

/-- A degenerate but valid stream: every draw returns the least element of its
support and the state never changes. -/
def constPRNG : PRNG Unit where
  seed _ := ()
  randint lo _ _ := (lo, ())
  choice opts _ _ := (opts.headD "", ())
  uniform lo _ _ := (lo, ())

/-- The body of the inner generation loop: draw a region, draw a category,
then draw a base amount from the category-specific range and scale it by the
month trend factor, exactly as the `if category == ...` chain does. -/
def genTransaction {σ : Type} (g : PRNG σ) (date : Nat × Nat) (s : σ) :
    Transaction × σ :=
  let r := g.choice regions regionWeights s
  let c := g.choice categories categoryWeights r.2
  if c.1 = "Technology" then
    let u := g.uniform 100 5000 c.2
    (⟨date.1, date.2, r.1, c.1, u.1 * (1 + (date.1 : ℚ) / 12)⟩, u.2)
  else if c.1 = "Furniture" then
    let u := g.uniform 50 3000 c.2
    (⟨date.1, date.2, r.1, c.1, u.1 * (1 + (date.1 : ℚ) / 12 * (8/10))⟩, u.2)
  else
    let u := g.uniform 20 1500 c.2
    (⟨date.1, date.2, r.1, c.1, u.1 * (1 + (date.1 : ℚ) / 12 * (7/10))⟩, u.2)

/-- `for _ in range(k)`: generate `k` transactions for one day, threading the
stream state. -/
def genTxns {σ : Type} (g : PRNG σ) (date : Nat × Nat) :
    Nat → σ → List Transaction × σ
  | 0, s => ([], s)
  | n + 1, s =>
    let t := genTransaction g date s
    let rest := genTxns g date n t.2
    (t.1 :: rest.1, rest.2)

/-- One day of the outer loop: `np.random.randint(1, 5)` sales for this day. -/
def genDay {σ : Type} (g : PRNG σ) (date : Nat × Nat) (s : σ) :
    List Transaction × σ :=
  let k := g.randint 1 5 s
  genTxns g date k.1.toNat k.2

/-- The outer loop over a list of dates, appending each day's rows in order. -/
def genAll {σ : Type} (g : PRNG σ) : List (Nat × Nat) → σ → List Transaction × σ
  | [], s => ([], s)
  | d :: ds, s =>
    let day := genDay g d s
    let rest := genAll g ds day.2
    (day.1 ++ rest.1, rest.2)

/-- The full generated `data` list for a given initial stream state. -/
def generate {σ : Type} (g : PRNG σ) (s : σ) : List Transaction :=
  (genAll g dates2024 s).1

/-- The dataset the script builds: seed the stream once (`np.random.seed(42)`)
and run the generation loop over all days of 2024. -/
def scriptDataset {σ : Type} (g : PRNG σ) : List Transaction :=
  generate g (g.seed 42)

/-- The category-specific base amount range of the spec's algorithm
description: Technology (100, 5000), Furniture (50, 3000),
Office Supplies (20, 1500). -/
def amountRange (c : String) : ℚ × ℚ :=
  if c = "Technology" then (100, 5000)
  else if c = "Furniture" then (50, 3000)
  else (20, 1500)

/-- The spec's trend weights: 1.0 for Technology, 0.8 for Furniture,
0.7 for Office Supplies. -/
def trendWeight (c : String) : ℚ :=
  if c = "Technology" then 1
  else if c = "Furniture" then 8/10
  else 7/10

/-- One transaction as the spec words it: draw region and category from their
weighted distributions, draw a base amount uniformly from the
category-specific range, scale by `1 + month/12 * trend_weight`. -/
def genTransactionSpec {σ : Type} (g : PRNG σ) (date : Nat × Nat) (s : σ) :
    Transaction × σ :=
  let r := g.choice regions regionWeights s
  let c := g.choice categories categoryWeights r.2
  let u := g.uniform (amountRange c.1).1 (amountRange c.1).2 c.2
  (⟨date.1, date.2, r.1, c.1, u.1 * (1 + (date.1 : ℚ) / 12 * trendWeight c.1)⟩,
   u.2)

/-- The spec's inner loop: `k` transactions for one day. -/
def genTxnsSpec {σ : Type} (g : PRNG σ) (date : Nat × Nat) :
    Nat → σ → List Transaction × σ
  | 0, s => ([], s)
  | n + 1, s =>
    let t := genTransactionSpec g date s
    let rest := genTxnsSpec g date n t.2
    (t.1 :: rest.1, rest.2)

/-- The spec's per-day step: draw a count `k` uniformly from `{1, 2, 3, 4}`
(i.e. `randint(1, 5)`), then generate `k` transactions. -/
def genDaySpec {σ : Type} (g : PRNG σ) (date : Nat × Nat) (s : σ) :
    List Transaction × σ :=
  let k := g.randint 1 5 s
  genTxnsSpec g date k.1.toNat k.2

/-- The spec's outer loop over the days. -/
def genAllSpec {σ : Type} (g : PRNG σ) :
    List (Nat × Nat) → σ → List Transaction × σ
  | [], s => ([], s)
  | d :: ds, s =>
    let day := genDaySpec g d s
    let rest := genAllSpec g ds day.2
    (day.1 ++ rest.1, rest.2)

/-- The generator algorithm exactly as the spec describes it: one transaction
batch per calendar day of 2024. -/
def generateSpec {σ : Type} (g : PRNG σ) (s : σ) : List Transaction :=
  (genAllSpec g dates2024 s).1

/-- `df.groupby(key)['SalesAmount'].sum()`: pandas groups with `sort=True`, so
the distinct keys appear in ascending key order, each paired with the sum of
the amounts of its rows. -/
def groupSumBy {K : Type} [DecidableEq K] [LinearOrder K] (key : Transaction → K)
    (df : List Transaction) : List (K × ℚ) :=
  (List.insertionSort (· ≤ ·) (df.map key).dedup).map
    (fun k => (k, ((df.filter (fun t => key t = k)).map Transaction.amount).sum))

/-- `df.groupby('Region')['SalesAmount'].sum().sort_values(ascending=False)` -/
def region_sales (df : List Transaction) : List (String × ℚ) :=
  List.insertionSort (fun a b => b.2 ≤ a.2) (groupSumBy Transaction.region df)

/-- `df.groupby('Category')['SalesAmount'].sum()` -/
def category_sales (df : List Transaction) : List (String × ℚ) :=
  groupSumBy Transaction.category df

/-- `df.groupby('Month')['SalesAmount'].sum().sort_index()` -/
def monthly_sales (df : List Transaction) : List (Nat × ℚ) :=
  List.insertionSort (fun a b => a.1 ≤ b.1) (groupSumBy Transaction.month df)

/-- `calendar.month_abbr` (index 0 is the empty string). -/
def monthAbbrs : List String :=
  ["", "Jan", "Feb", "Mar", "Apr", "May", "Jun",
   "Jul", "Aug", "Sep", "Oct", "Nov", "Dec"]

/-- `calendar.month_abbr[m]` -/
def monthAbbr (m : Nat) : String := monthAbbrs.getD m ""

/-- `month_names = [calendar.month_abbr[m] for m in monthly_sales.index]` -/
def month_names (df : List Transaction) : List String :=
  (monthly_sales df).map (fun p => monthAbbr p.1)

/-- `total_sales_value = df['SalesAmount'].sum()` -/
def total_sales_value (df : List Transaction) : ℚ :=
  (df.map Transaction.amount).sum

/-- The sum of the values of a summary table (sum of a grouped-sum series). -/
def sumTable {K : Type} (t : List (K × ℚ)) : ℚ := (t.map Prod.snd).sum

/-- Round to the nearest integer, ties to even — the rounding Python's fixed
point `format` applies to an exactly representable value. -/
def roundHalfEven (q : ℚ) : ℤ :=
  let f := ⌊q⌋
  let r := q - f
  if r < 1/2 then f
  else if 1/2 < r then f + 1
  else if Even f then f else f + 1

/-- Python `f'{q:.0f}'` on an exactly representable value. -/
def fmtDec0 (q : ℚ) : String := toString (roundHalfEven q)

/-- Python `f'{q:.1f}'` on an exactly representable value. -/
def fmtDec1 (q : ℚ) : String :=
  let n := roundHalfEven (q * 10)
  let a := n.natAbs
  (if n < 0 then "-" else "") ++ toString (a / 10) ++ "." ++ toString (a % 10)

/-- `format_sales(value, pos)`: abbreviate to `M` above a million, to `K`
above a thousand, plain rounded integer below. -/
def format_sales (value : ℚ) : String :=
  if 1000000 ≤ value then fmtDec1 (value / 1000000) ++ "M"
  else if 1000 ≤ value then fmtDec0 (value / 1000) ++ "K"
  else fmtDec0 value

/-- `np.linspace(start, stop, num)` with default `endpoint=True`: the step is
`(stop - start) / (num - 1)`; the divisor is the constant `num - 1`, never a
data value. -/
def linspace (start stop : ℚ) (num : Nat) : List ℚ :=
  (List.range num).map (fun i => start + (stop - start) * i / ((num - 1 : ℕ) : ℚ))

/-- `region_sales.max()`: `none` models the NaN pandas returns on an empty
series. -/
def max_sales (df : List Transaction) : Option ℚ :=
  ((region_sales df).map Prod.snd).max?

/-- `xticks = np.linspace(0, max_sales, 5)`; `none` propagates the NaN of an
empty maximum (NumPy produces NaN ticks, it does not raise). -/
def xticks (df : List Transaction) : Option (List ℚ) :=
  (max_sales df).map (fun m => linspace 0 m 5)

/-- `monthly_sales.max()` -/
def max_monthly_sales (df : List Transaction) : Option ℚ :=
  ((monthly_sales df).map Prod.snd).max?

/-- `yticks = np.linspace(0, max_monthly_sales * 1.1, 4)` -/
def yticks (df : List Transaction) : Option (List ℚ) :=
  (max_monthly_sales df).map (fun m => linspace 0 (m * (11/10)) 4)

/-- `region_slicer_texts = ['Central', 'East', 'South', 'West']` -/
def region_slicer_texts : List String := ["Central", "East", "South", "West"]

/-- The grid-column slice start `i + 0.8` used by `gs[0, i+0.8:]` in the
region-slicer loop. -/
def slicerColStart (i : Nat) : ℚ := (i : ℚ) + 8/10

/-- A Python slice index is accepted only if it is an integer (`slice.indices`
raises `TypeError` on a float). -/
def pySliceIndexOk (q : ℚ) : Prop := ∃ n : ℤ, q = (n : ℚ)

/-- The region-slicer loop builds its four panels without raising exactly when
every slice start it passes to `GridSpec.__getitem__` is a valid (integer)
slice index. -/
def slicersRenderOk : Prop := ∀ i < 4, pySliceIndexOk (slicerColStart i)

/-! ### Lemmas: the spec's algorithm description and the code coincide -/

lemma genTransactionSpec_eq {σ : Type} (g : PRNG σ) (date : Nat × Nat) (s : σ) :
    genTransactionSpec g date s = genTransaction g date s := by
  unfold genTransactionSpec genTransaction
  by_cases h1 : (g.choice categories categoryWeights
      (g.choice regions regionWeights s).2).1 = "Technology"
  · simp [h1, amountRange, trendWeight]
  · by_cases h2 : (g.choice categories categoryWeights
        (g.choice regions regionWeights s).2).1 = "Furniture"
    · simp [h1, h2, amountRange, trendWeight]
    · simp [h1, h2, amountRange, trendWeight]

lemma genTxnsSpec_eq {σ : Type} (g : PRNG σ) (date : Nat × Nat) :
    ∀ (n : Nat) (s : σ), genTxnsSpec g date n s = genTxns g date n s := by
  intro n
  induction n with
  | zero => intro s; rfl
  | succ n ih =>
    intro s
    simp only [genTxnsSpec, genTxns, genTransactionSpec_eq, ih]

lemma genDaySpec_eq {σ : Type} (g : PRNG σ) (date : Nat × Nat) (s : σ) :
    genDaySpec g date s = genDay g date s := by
  simp only [genDaySpec, genDay, genTxnsSpec_eq]

lemma genAllSpec_eq {σ : Type} (g : PRNG σ) :
    ∀ (ds : List (Nat × Nat)) (s : σ), genAllSpec g ds s = genAll g ds s := by
  intro ds
  induction ds with
  | nil => intro s; rfl
  | cons d ds ih =>
    intro s
    simp only [genAllSpec, genAll, genDaySpec_eq, ih]

lemma generateSpec_eq {σ : Type} (g : PRNG σ) (s : σ) :
    generateSpec g s = generate g s := by
  simp only [generateSpec, generate, genAllSpec_eq]

/-! ### Lemmas: grouped sums partition the grand total -/

lemma sum_filter_not_split {α : Type} (p : α → Bool) (f : α → ℚ) :
    ∀ l : List α,
      ((l.filter p).map f).sum + ((l.filter (fun a => !p a)).map f).sum
        = (l.map f).sum := by
  intro l
  induction l with
  | nil => simp
  | cons a l ih =>
    by_cases h : p a = true <;>
      simp [List.filter_cons, h] <;> linarith

lemma sum_over_keys {K : Type} [DecidableEq K] {α : Type}
    (key : α → K) (f : α → ℚ) :
    ∀ (keys : List K) (l : List α), keys.Nodup → (∀ a ∈ l, key a ∈ keys) →
      (keys.map (fun k => ((l.filter (fun a => key a = k)).map f).sum)).sum
        = (l.map f).sum := by
  intro keys
  induction keys with
  | nil =>
    intro l _ hcov
    cases l with
    | nil => simp
    | cons a l => exact absurd (hcov a (List.mem_cons_self a l)) (by simp)
  | cons k ks ih =>
    intro l hnd hcov
    have hk : k ∉ ks := (List.nodup_cons.mp hnd).1
    have hnd' : ks.Nodup := (List.nodup_cons.mp hnd).2
    set l' := l.filter (fun a => !(decide (key a = k))) with hl'
    have hstep : ∀ k' ∈ ks,
        ((l.filter (fun a => key a = k')).map f).sum
          = ((l'.filter (fun a => key a = k')).map f).sum := by
      intro k' hk'
      have hkk' : k' ≠ k := fun h => hk (h ▸ hk')
      rw [hl', List.filter_filter]
      have hfe : (l.filter (fun a => decide (key a = k'))) =
          (l.filter (fun a => decide (key a = k') && !decide (key a = k))) := by
        apply List.filter_congr
        intro a _
        by_cases h : key a = k'
        · simp [h, hkk']
        · simp [h]
      rw [hfe]
    have hcov' : ∀ a ∈ l', key a ∈ ks := by
      intro a ha
      rw [hl', List.mem_filter] at ha
      have := hcov a ha.1
      rcases List.mem_cons.mp this with h | h
      · exact absurd (decide_eq_true_eq.mp (by simpa using ha.2) : ¬ _) (by simp [h])
      · exact h
    calc (((k :: ks)).map
            (fun k => ((l.filter (fun a => key a = k)).map f).sum)).sum
        = ((l.filter (fun a => key a = k)).map f).sum
            + (ks.map (fun k' => ((l.filter (fun a => key a = k')).map f).sum)).sum := by
          simp
      _ = ((l.filter (fun a => key a = k)).map f).sum
            + (ks.map (fun k' => ((l'.filter (fun a => key a = k')).map f).sum)).sum := by
          rw [List.map_congr_left hstep]
      _ = ((l.filter (fun a => key a = k)).map f).sum + (l'.map f).sum := by
          rw [ih l' hnd' hcov']
      _ = (l.map f).sum := by
          rw [hl']
          exact sum_filter_not_split (fun a => decide (key a = k)) f l

lemma sumTable_groupSumBy {K : Type} [DecidableEq K] [LinearOrder K] (key : Transaction → K)
    (df : List Transaction) :
    sumTable (groupSumBy key df) = total_sales_value df := by
  unfold sumTable groupSumBy total_sales_value
  rw [List.map_map]
  have hperm : List.Perm (List.insertionSort (· ≤ ·) (df.map key).dedup)
      (df.map key).dedup :=
    List.perm_insertionSort _ _
  have hnd : (List.insertionSort (· ≤ ·) (df.map key).dedup).Nodup :=
    hperm.nodup_iff.mpr (List.nodup_dedup _)
  have hcov : ∀ t ∈ df, key t ∈ List.insertionSort (· ≤ ·) (df.map key).dedup := by
    intro t ht
    rw [hperm.mem_iff, List.mem_dedup]
    exact List.mem_map_of_mem key ht
  simpa using sum_over_keys key Transaction.amount _ df hnd hcov

lemma sumTable_insertionSort {K : Type} (r : K × ℚ → K × ℚ → Prop)
    [DecidableRel r] (t : List (K × ℚ)) :
    sumTable (List.insertionSort r t) = sumTable t := by
  unfold sumTable
  exact ((List.perm_insertionSort r t).map Prod.snd).sum_eq

/-! ### Lemmas: sort orders of the summary tables -/

instance : DecidableRel (fun (a b : String × ℚ) => b.2 ≤ a.2) :=
  fun a b => inferInstanceAs (Decidable (b.2 ≤ a.2))

instance : IsTotal (String × ℚ) (fun a b => b.2 ≤ a.2) :=
  ⟨fun a b => le_total b.2 a.2⟩

instance : IsTrans (String × ℚ) (fun a b => b.2 ≤ a.2) :=
  ⟨fun _ _ _ h1 h2 => le_trans h2 h1⟩

instance : DecidableRel (fun (a b : Nat × ℚ) => a.1 ≤ b.1) :=
  fun a b => inferInstanceAs (Decidable (a.1 ≤ b.1))

instance : IsTotal (Nat × ℚ) (fun a b => a.1 ≤ b.1) :=
  ⟨fun a b => le_total a.1 b.1⟩

instance : IsTrans (Nat × ℚ) (fun a b => a.1 ≤ b.1) :=
  ⟨fun _ _ _ h1 h2 => le_trans h1 h2⟩

lemma region_sales_sorted (df : List Transaction) :
    (region_sales df).Sorted (fun a b => b.2 ≤ a.2) :=
  List.sorted_insertionSort _ _

lemma monthly_sales_sorted (df : List Transaction) :
    (monthly_sales df).Sorted (fun a b => a.1 ≤ b.1) :=
  List.sorted_insertionSort _ _

lemma groupSumBy_keys {K : Type} [DecidableEq K] [LinearOrder K] (key : Transaction → K)
    (df : List Transaction) :
    (groupSumBy key df).map Prod.fst
      = List.insertionSort (· ≤ ·) (df.map key).dedup := by
  unfold groupSumBy
  rw [List.map_map]
  exact List.map_id _

lemma mem_groupSumBy_key {K : Type} [DecidableEq K] [LinearOrder K] (key : Transaction → K)
    (df : List Transaction) (p : K × ℚ) (hp : p ∈ groupSumBy key df) :
    ∃ t ∈ df, key t = p.1 := by
  unfold groupSumBy at hp
  rcases List.mem_map.mp hp with ⟨k, hk, hkp⟩
  have hk' : k ∈ (df.map key).dedup :=
    (List.perm_insertionSort _ _).mem_iff.mp hk
  rcases List.mem_map.mp (List.mem_dedup.mp hk') with ⟨t, ht, hkt⟩
  exact ⟨t, ht, by rw [hkt, ← hkp]⟩

lemma category_sales_keys_sorted (df : List Transaction) :
    ((category_sales df).map Prod.fst).Sorted (· ≤ ·) := by
  rw [category_sales, groupSumBy_keys]
  exact List.sorted_insertionSort _ _

/-! ### Lemmas: every generated row satisfies the data-model invariant -/

/-- The row invariant of the data model: positive amount, region and category
drawn from their fixed enumerations. -/
def RowOk (t : Transaction) : Prop :=
  0 < t.amount ∧ t.region ∈ regions ∧ t.category ∈ categories

lemma genTransaction_ok {σ : Type} (g : PRNG σ) (hv : g.Valid)
    (date : Nat × Nat) (s : σ) : RowOk (genTransaction g date s).1 := by
  have hreg : (g.choice regions regionWeights s).1 ∈ regions :=
    hv.choice_mem _ _ _ (by simp [regions])
  have hcat : (g.choice categories categoryWeights
      (g.choice regions regionWeights s).2).1 ∈ categories :=
    hv.choice_mem _ _ _ (by simp [categories])
  unfold genTransaction RowOk
  dsimp only
  split_ifs with h1 h2
  · have hu' : (0:ℚ) < (g.uniform 100 5000 (g.choice categories categoryWeights
        (g.choice regions regionWeights s).2).2).1 :=
      lt_of_lt_of_le (by norm_num)
        (hv.uniform_mem 100 5000 ((g.choice categories categoryWeights
          (g.choice regions regionWeights s).2).2) (by norm_num)).1
    exact ⟨by positivity, hreg, hcat⟩
  · have hu' : (0:ℚ) < (g.uniform 50 3000 (g.choice categories categoryWeights
        (g.choice regions regionWeights s).2).2).1 :=
      lt_of_lt_of_le (by norm_num)
        (hv.uniform_mem 50 3000 ((g.choice categories categoryWeights
          (g.choice regions regionWeights s).2).2) (by norm_num)).1
    exact ⟨by positivity, hreg, hcat⟩
  · have hu' : (0:ℚ) < (g.uniform 20 1500 (g.choice categories categoryWeights
        (g.choice regions regionWeights s).2).2).1 :=
      lt_of_lt_of_le (by norm_num)
        (hv.uniform_mem 20 1500 ((g.choice categories categoryWeights
          (g.choice regions regionWeights s).2).2) (by norm_num)).1
    exact ⟨by positivity, hreg, hcat⟩

lemma genTxns_ok {σ : Type} (g : PRNG σ) (hv : g.Valid) (date : Nat × Nat) :
    ∀ (n : Nat) (s : σ), ∀ t ∈ (genTxns g date n s).1, RowOk t := by
  intro n
  induction n with
  | zero => intro s t ht; simp [genTxns] at ht
  | succ n ih =>
    intro s t ht
    simp only [genTxns, List.mem_cons] at ht
    rcases ht with h | h
    · exact h ▸ genTransaction_ok g hv date s
    · exact ih _ t h

lemma genAll_ok {σ : Type} (g : PRNG σ) (hv : g.Valid) :
    ∀ (ds : List (Nat × Nat)) (s : σ), ∀ t ∈ (genAll g ds s).1, RowOk t := by
  intro ds
  induction ds with
  | nil => intro s t ht; simp [genAll] at ht
  | cons d ds ih =>
    intro s t ht
    simp only [genAll, List.mem_append] at ht
    rcases ht with h | h
    · exact genTxns_ok g hv d _ _ t h
    · exact ih _ t h

lemma generate_ok {σ : Type} (g : PRNG σ) (hv : g.Valid) (s : σ) :
    ∀ t ∈ generate g s, RowOk t :=
  genAll_ok g hv dates2024 s

lemma constPRNG_valid : constPRNG.Valid := by
  constructor
  · intro lo hi s h
    exact ⟨le_refl lo, h⟩
  · intro opts p s h
    cases opts with
    | nil => exact absurd rfl h
    | cons a l => simp [constPRNG]
  · intro lo hi s h
    exact ⟨le_refl lo, h⟩

/-! ### Lemmas: evaluating the shared value formatter -/

lemma roundHalfEven_intCast (n : ℤ) : roundHalfEven (n : ℚ) = n := by
  unfold roundHalfEven
  rw [Int.floor_intCast]
  norm_num

lemma roundHalfEven_int_add_half (n : ℤ) :
    roundHalfEven ((n : ℚ) + 1/2) = if Even n then n else n + 1 := by
  unfold roundHalfEven
  have hf : (⌊(n : ℚ) + 1/2⌋ : ℤ) = n := by
    rw [Int.floor_eq_iff]
    constructor
    · linarith
    · linarith
  rw [hf]
  dsimp only
  have hr : (n : ℚ) + 1/2 - n = 1/2 := by ring
  rw [hr]
  norm_num

lemma format_sales_M (v : ℚ) (h : 1000000 ≤ v) :
    format_sales v = fmtDec1 (v / 1000000) ++ "M" := by
  unfold format_sales
  rw [if_pos h]

lemma format_sales_K (v : ℚ) (h1 : v < 1000000) (h2 : 1000 ≤ v) :
    format_sales v = fmtDec0 (v / 1000) ++ "K" := by
  unfold format_sales
  rw [if_neg (not_le.mpr h1), if_pos h2]

lemma format_sales_plain (v : ℚ) (h : v < 1000) : format_sales v = fmtDec0 v := by
  unfold format_sales
  rw [if_neg (not_le.mpr (lt_trans h (by norm_num))), if_neg (not_le.mpr h)]

lemma fmtDec0_intCast (n : ℤ) : fmtDec0 (n : ℚ) = toString n := by
  unfold fmtDec0
  rw [roundHalfEven_intCast]

lemma format_sales_int_lt (n : ℤ) (h : (n : ℚ) < 1000) :
    format_sales (n : ℚ) = toString n := by
  rw [format_sales_plain _ h, fmtDec0_intCast]

lemma fmtDec0_half_eval (a : ℤ) (q : ℚ) (h : q = (a : ℚ) + 1/2) :
    fmtDec0 q = toString (if Even a then a else a + 1) := by
  unfold fmtDec0
  rw [h, roundHalfEven_int_add_half]

lemma fmtDec1_int_eval (a : ℤ) (q : ℚ) (h : q * 10 = (a : ℚ)) :
    fmtDec1 q = (if a < 0 then "-" else "")
      ++ toString (a.natAbs / 10) ++ "." ++ toString (a.natAbs % 10) := by
  unfold fmtDec1
  rw [h, roundHalfEven_intCast]

/-! ### Lemmas: axis tick computation -/

lemma linspace_zero_five (m : ℚ) :
    linspace 0 m 5 = [0, m/4, m/2, 3*m/4, m] := by
  unfold linspace
  norm_num [List.range_succ]
  refine ⟨by ring, by ring⟩

lemma linspace_zero_four (m : ℚ) :
    linspace 0 (m * (11/10)) 4 = [0, m*11/30, m*11/15, m*11/10] := by
  unfold linspace
  norm_num [List.range_succ]
  refine ⟨by ring, by ring, by ring⟩

/-! ### Lemmas: the region-slicer loop passes a float where Python demands an
integer slice index -/

lemma slicerColStart_zero_not_int : ¬ pySliceIndexOk (slicerColStart 0) := by
  rintro ⟨n, hn⟩
  rw [slicerColStart] at hn
  push_cast at hn
  have h : (4 : ℚ) = (n : ℚ) * 5 := by linarith
  have h' : (4 : ℤ) = n * 5 := by exact_mod_cast h
  omega

/-! ### A small concrete dataset: one row per category, inserted in the order
the categories are defined -/

def exCat : List Transaction :=
  [⟨1, 1, "West", "Technology", 1⟩,
   ⟨1, 2, "West", "Furniture", 1⟩,
   ⟨1, 3, "West", "Office Supplies", 1⟩]

lemma le_FO : ("Furniture" : String) ≤ "Office Supplies" := by
  rw [String.le_iff_toList_le]
  decide

lemma not_le_TF : ¬ (("Technology" : String) ≤ "Furniture") := by
  rw [String.le_iff_toList_le]
  decide

lemma not_le_TO : ¬ (("Technology" : String) ≤ "Office Supplies") := by
  rw [String.le_iff_toList_le]
  decide

lemma category_sales_exCat_keys :
    (category_sales exCat).map Prod.fst
      = ["Furniture", "Office Supplies", "Technology"] := by
  rw [category_sales, groupSumBy_keys]
  have hmap : exCat.map Transaction.category
      = ["Technology", "Furniture", "Office Supplies"] := rfl
  rw [hmap]
  have hnd : (["Technology", "Furniture", "Office Supplies"] : List String).Nodup := by
    decide
  rw [List.Nodup.dedup hnd]
  simp [List.insertionSort, List.orderedInsert, le_FO, not_le_TF, not_le_TO]
  decide

/-! ## Claim theorems -/

/-- C1: the sum of the Region-sum table, the sum of the Category-sum table and
the sum of the Month-sum table each equal the grand total of `SalesAmount`
over the generated dataset (exactly, in the rational model, hence within any
floating-point tolerance). -/
theorem region_category_month_totals_eq_grand_total
    (σ : Type) (g : PRNG σ) (s : σ) :
    sumTable (region_sales (generate g s)) = total_sales_value (generate g s)
  ∧ sumTable (category_sales (generate g s)) = total_sales_value (generate g s)
  ∧ sumTable (monthly_sales (generate g s)) = total_sales_value (generate g s) := by
  refine ⟨?_, ?_, ?_⟩
  · rw [region_sales, sumTable_insertionSort, sumTable_groupSumBy]
  · rw [category_sales, sumTable_groupSumBy]
  · rw [monthly_sales, sumTable_insertionSort, sumTable_groupSumBy]

/-- C2: generation is deterministic — the dataset is a pure function of the
single stream state seeded once at the start, so two runs seeded with the
same value produce identical row lists. -/
theorem generator_deterministic (σ : Type) (g : PRNG σ) (n m : Nat)
    (h : n = m) : generate g (g.seed n) = generate g (g.seed m) := by
  rw [h]

theorem generator_deterministic_witness :
    generate constPRNG (constPRNG.seed 42)
      = generate constPRNG (constPRNG.seed 42) :=
  generator_deterministic Unit constPRNG 42 42 rfl

/-- C3: the shared formatter obeys the spec's rule — values at or above a
million render as one-decimal `M`, values at or above a thousand as
zero-decimal `K`, and integers below a thousand as their integer string; in
particular `format(999) = "999"`, `format(1500) = "2K"`,
`format(2500000) = "2.5M"`. -/
theorem format_sales_spec :
    format_sales 999 = "999"
  ∧ format_sales 1500 = "2K"
  ∧ format_sales 2500000 = "2.5M"
  ∧ (∀ v : ℚ, 1000000 ≤ v → format_sales v = fmtDec1 (v / 1000000) ++ "M")
  ∧ (∀ v : ℚ, v < 1000000 → 1000 ≤ v → format_sales v = fmtDec0 (v / 1000) ++ "K")
  ∧ (∀ z : ℤ, (z : ℚ) < 1000 → format_sales (z : ℚ) = toString z) := by
  refine ⟨?_, ?_, ?_, format_sales_M, format_sales_K, format_sales_int_lt⟩
  · have hc : ((999 : ℤ) : ℚ) = (999 : ℚ) := by norm_num
    rw [← hc, format_sales_int_lt 999 (by norm_num)]
    rfl
  · rw [format_sales_K 1500 (by norm_num) (by norm_num),
        fmtDec0_half_eval 1 ((1500 : ℚ)/1000) (by norm_num),
        if_neg (by decide : ¬ Even (1 : ℤ))]
    rfl
  · rw [format_sales_M 2500000 (by norm_num),
        fmtDec1_int_eval 25 ((2500000 : ℚ)/1000000) (by norm_num),
        if_neg (by decide : ¬ (25 : ℤ) < 0)]
    rfl

theorem format_sales_spec_witness :
    format_sales 2000000 = fmtDec1 ((2000000 : ℚ) / 1000000) ++ "M"
  ∧ format_sales 1200 = fmtDec0 ((1200 : ℚ) / 1000) ++ "K"
  ∧ format_sales ((500 : ℤ) : ℚ) = toString (500 : ℤ) :=
  ⟨format_sales_spec.2.2.2.1 2000000 (by norm_num),
   format_sales_spec.2.2.2.2.1 1200 (by norm_num) (by norm_num),
   format_sales_spec.2.2.2.2.2 500 (by norm_num)⟩

/-- C4: for every dataset whose months lie in 1..12, the Region-sum table is
sorted descending by value, the Month-sum table is sorted ascending by month
number with keys staying in 1..12, and the displayed month labels are the
three-letter abbreviations of those keys. -/
theorem region_desc_month_asc_sorted (df : List Transaction)
    (h : df.Forall (fun t => 1 ≤ t.month ∧ t.month ≤ 12)) :
    (region_sales df).Sorted (fun a b => b.2 ≤ a.2)
  ∧ (monthly_sales df).Sorted (fun a b => a.1 ≤ b.1)
  ∧ (monthly_sales df).Forall (fun p => 1 ≤ p.1 ∧ p.1 ≤ 12)
  ∧ month_names df = (monthly_sales df).map (fun p => monthAbbr p.1) := by
  refine ⟨region_sales_sorted df, monthly_sales_sorted df, ?_, rfl⟩
  rw [List.forall_iff_forall_mem] at h ⊢
  intro p hp
  rw [monthly_sales] at hp
  have hp' : p ∈ groupSumBy Transaction.month df :=
    (List.perm_insertionSort _ _).mem_iff.mp hp
  rcases mem_groupSumBy_key Transaction.month df p hp' with ⟨t, ht, hkey⟩
  exact hkey ▸ h t ht

theorem region_desc_month_asc_sorted_witness :
    (region_sales exCat).Sorted (fun a b => b.2 ≤ a.2)
  ∧ (monthly_sales exCat).Sorted (fun a b => a.1 ≤ b.1)
  ∧ (monthly_sales exCat).Forall (fun p => 1 ≤ p.1 ∧ p.1 ≤ 12)
  ∧ month_names exCat = (monthly_sales exCat).map (fun p => monthAbbr p.1) :=
  region_desc_month_asc_sorted exCat (by decide)

/-- C5 (counterexample): on a dataset holding the three categories in their
definition order Technology, Furniture, Office Supplies, the Category-sum
table does not list its keys in that insertion order. -/
theorem category_order_not_insertion_order :
    (category_sales exCat).map Prod.fst
      ≠ ["Technology", "Furniture", "Office Supplies"] := by
  rw [category_sales_exCat_keys]
  decide

/-- C5 (amended): the Category-sum table lists its keys in ascending
alphabetical order (pandas `groupby` sorts group keys), which for the three
categories is Furniture, Office Supplies, Technology. -/
theorem category_keys_sorted_alphabetically :
    (∀ df : List Transaction, ((category_sales df).map Prod.fst).Sorted (· ≤ ·))
  ∧ (category_sales exCat).map Prod.fst
      = ["Furniture", "Office Supplies", "Technology"] :=
  ⟨category_sales_keys_sorted, category_sales_exCat_keys⟩

/-- C6: an empty dataset yields three empty summary tables; the maxima of the
empty tables are absent (pandas NaN, modelled as `none`) and propagate to the
tick lists without raising; and the tick computation divides only by the
constant `num - 1` (4 for the bar panel, 3 for the area panel), never by a
data-dependent maximum, so no division by zero can occur. -/
theorem empty_dataset_graceful :
    region_sales [] = [] ∧ category_sales [] = [] ∧ monthly_sales [] = []
  ∧ max_sales [] = none ∧ xticks [] = none
  ∧ max_monthly_sales [] = none ∧ yticks [] = none
  ∧ (∀ m : ℚ, linspace 0 m 5 = [0, m/4, m/2, 3*m/4, m])
  ∧ (∀ m : ℚ, linspace 0 (m * (11/10)) 4 = [0, m*11/30, m*11/15, m*11/10]) :=
  ⟨rfl, rfl, rfl, rfl, rfl, rfl, rfl, linspace_zero_five, linspace_zero_four⟩

set_option maxRecDepth 8000 in
/-- C7: the generator implements the spec's algorithm — one batch per calendar
day of 2024 (366 days), count drawn by `randint(1, 5)`, region and category
drawn from their weighted distributions, base amount uniform in the
category-specific range, scaled by `1 + month/12 * trend_weight` with weights
1.0 / 0.8 / 0.7; the spec-worded generator produces the identical dataset for
every stream. -/
theorem generator_matches_spec_algorithm :
    dates2024.length = 366
  ∧ ∀ (σ : Type) (g : PRNG σ) (s : σ), generateSpec g s = generate g s :=
  ⟨by decide, fun _ g s => generateSpec_eq g s⟩

/-- C8: every generated row has a strictly positive amount, a region from the
fixed region list and a category from the fixed category list, for every
stream whose draws respect their supports. -/
theorem generated_rows_invariant (σ : Type) (g : PRNG σ) (hv : g.Valid)
    (s : σ) :
    (generate g s).Forall
      (fun t => 0 < t.amount ∧ t.region ∈ regions ∧ t.category ∈ categories) := by
  rw [List.forall_iff_forall_mem]
  exact fun t ht => generate_ok g hv s t ht

theorem generated_rows_invariant_witness :
    (generate constPRNG (constPRNG.seed 42)).Forall
      (fun t => 0 < t.amount ∧ t.region ∈ regions ∧ t.category ∈ categories) :=
  generated_rows_invariant Unit constPRNG constPRNG_valid (constPRNG.seed 42)

/-- C9: the renderer's title row names the four regions, but the slicer loop
passes the float slice start `i + 0.8` to `GridSpec.__getitem__`; already the
first iteration's index 0.8 is not an integer, so the loop cannot satisfy
Python's integer-slice-index requirement and raises instead of rendering. -/
theorem region_slicer_float_slice_raises :
    region_slicer_texts = ["Central", "East", "South", "West"]
  ∧ slicerColStart 0 = 4/5
  ∧ ¬ pySliceIndexOk (slicerColStart 0)
  ∧ ¬ slicersRenderOk := by
  refine ⟨rfl, ?_, slicerColStart_zero_not_int, ?_⟩
  · rw [slicerColStart]
    norm_num
  · intro h
    exact slicerColStart_zero_not_int (h 0 (by norm_num))

/-- C10: the formatter's thresholds are inclusive (`1.0M` at exactly a
million, `1K` at exactly a thousand), the zero-decimal `K` branch rounds half
to even (`2K` for 2500, `4K` for 3500), and every negative value falls
through to the plain integer branch (`-5000`, not `-5K`). -/
theorem format_sales_edge_cases :
    format_sales 1000000 = "1.0M"
  ∧ format_sales 1000 = "1K"
  ∧ format_sales 2500 = "2K"
  ∧ format_sales 3500 = "4K"
  ∧ format_sales (-5000) = "-5000"
  ∧ (∀ v : ℚ, v < 0 → format_sales v = fmtDec0 v) := by
  refine ⟨?_, ?_, ?_, ?_, ?_, ?_⟩
  · rw [format_sales_M 1000000 (by norm_num),
        fmtDec1_int_eval 10 ((1000000 : ℚ)/1000000) (by norm_num),
        if_neg (by decide : ¬ (10 : ℤ) < 0)]
    rfl
  · have hc : ((1000 : ℚ)/1000) = ((1 : ℤ) : ℚ) := by norm_num
    rw [format_sales_K 1000 (by norm_num) (by norm_num), hc, fmtDec0_intCast]
    rfl
  · rw [format_sales_K 2500 (by norm_num) (by norm_num),
        fmtDec0_half_eval 2 ((2500 : ℚ)/1000) (by norm_num),
        if_pos (by decide : Even (2 : ℤ))]
    rfl
  · rw [format_sales_K 3500 (by norm_num) (by norm_num),
        fmtDec0_half_eval 3 ((3500 : ℚ)/1000) (by norm_num),
        if_neg (by decide : ¬ Even (3 : ℤ))]
    rfl
  · have hc : (((-5000) : ℤ) : ℚ) = ((-5000) : ℚ) := by norm_num
    rw [← hc, format_sales_int_lt (-5000) (by norm_num)]
    rfl
  · exact fun v hv => format_sales_plain v (lt_trans hv (by norm_num))

theorem format_sales_edge_cases_witness :
    format_sales (-1) = fmtDec0 (-1) :=
  format_sales_edge_cases.2.2.2.2.2 (-1) (by norm_num)

end Task3
